import Mathlib

/-!
Verification of the articy-rs traversal engine (src/lib.rs, src/types.rs)
against its natural-language specification.

The data model and the interpreter are embedded shallowly: every Rust
function becomes a Lean function over the same data, Rust `Result<T, Error>`
becomes `Except Fault T` where `Fault.err` is a typed `Err` return and
`Fault.panic` is a Rust panic (`expect` / `todo!` / `unimplemented!`),
and the mutually recursive `advance` / `post_advance` pair carries a fuel
parameter (`none` = the Rust recursion has not terminated within the fuel).

Fields of purely presentational or authoring-metadata type (colors,
positions, sizes, z-indexes, short ids, speakers, menu text, stage
directions, preview images, attachments, external ids, creation data)
are elided from the model variants: the interpreter never reads them.
The external `evalexpr` crate is abstracted as an `EvalEngine` record of
the two entry points the interpreter calls.
-/

namespace Articy

/-- types.rs `Id`: an opaque string-valued key, equality by value. -/
structure Id where
  val : String
deriving DecidableEq

/-- types.rs `Connection`: a directed edge from an output pin to the input
pin `target_pin` on node `target`. -/
structure Connection where
  label : String
  target_pin : Id
  target : Id
deriving DecidableEq

/-- types.rs `Pin`: gating text, own id, owner node id, outgoing connections. -/
structure Pin where
  text : String
  id : Id
  owner : Id
  connections : List Connection
deriving DecidableEq

/-- evalexpr `Value` (the crate's value type), reduced to the variants the
interpreter's variable store can hold per the spec (Boolean/Integer/String);
the crate's float/tuple/empty variants are never consulted by the claims. -/
inductive StateValue where
  | Boolean (b : Bool)
  | Integer (i : Int)
  | Str (s : String)
deriving DecidableEq

/-- evalexpr `HashMapContext`, modelled as an association list. -/
abbrev Store := List (String × StateValue)

/-- The external evalexpr crate surface used by lib.rs:
`eval_boolean_with_context` (read-only boolean evaluation, may fail) and
`eval_with_context_mut` (mutating evaluation used for Instruction nodes). -/
structure EvalEngine where
  eval_boolean_with_context : String → Store → Except Unit Bool
  eval_with_context_mut : String → Store → Except Unit StateValue × Store

/-- types.rs `Type` (Lean cannot reuse the reserved name `Type`; the
`Custom` constructor is listed first so that its `String` field refers to
the ordinary string type rather than the `String` constructor). -/
inductive Ty where
  | Custom (kind : String)
  | Rect | PreviewImageViewBoxModes | Point | Color | InputPin | OutputPin
  | Size | PreviewImage | Transformation | OutgoingConnection
  | IncomingConnection | LocationAnchor | LocationAnchorSize | ShapeType
  | SelectabilityModes | VisibilityModes | OutlineStyle | PathCaps
  | FlowFragment | Dialogue | DialogueFragment | Hub | Spot | Zone
  | Comment | Jump | Entity | Location | LocationText | LocationImage
  | Path | Link | Asset | Condition | Instruction | Document | TextObject
  | UserFolder | Id | Float | Flow | Primitive | ArticyObject | Array
  | String
deriving DecidableEq

/-- types.rs `Model` (the node enum). Variant fields are those the
interpreter reads: id, parent, technical_name, texts, expression and the
pin lists. The `Instruction` variant is matched by `Interpreter::advance`
in lib.rs but is absent from the `Model` enum in types.rs; it is
reconstructed here from the spec (§3: a textual mutating statement with
input/output pins), marked spec-modelled. `Custom`'s raw payload keeps
only the string fields of the JSON object, which is all `id`/`parent`
ever read from it. -/
inductive Model where
  | DialogueFragment (id parent : Id) (technical_name text : String)
      (input_pins output_pins : List Pin)
  | Hub (id parent : Id) (technical_name display_name text : String)
      (input_pins output_pins : List Pin)
  | FlowFragment (parent id : Id) (technical_name display_name text : String)
      (input_pins output_pins : List Pin)
  | Dialogue (id parent : Id) (technical_name display_name text : String)
      (input_pins output_pins : List Pin)
  | Entity (id parent : Id) (technical_name display_name text : String)
  | Comment (id parent : Id) (technical_name text : String)
  | Condition (id parent : Id) (technical_name display_name text expression : String)
      (input_pins output_pins : List Pin)
  | Instruction (id parent : Id) (technical_name expression : String)
      (input_pins output_pins : List Pin)
  | UserFolder (id parent : Id) (technical_name : String)
  | Custom (kind : String) (value : List (String × String))
deriving DecidableEq

/-- types.rs `Model::id`. -/
def Model.id : Model → Id
  | .DialogueFragment i _ _ _ _ _ => i
  | .Hub i _ _ _ _ _ _ => i
  | .FlowFragment _ i _ _ _ _ _ => i
  | .Dialogue i _ _ _ _ _ _ => i
  | .Entity i _ _ _ _ => i
  | .Comment i _ _ _ => i
  | .Condition i _ _ _ _ _ _ _ => i
  | .Instruction i _ _ _ _ _ => i
  | .UserFolder i _ _ => i
  | .Custom _ v =>
      match v.find? (fun kv => kv.1 = "id") with
      | some kv => ⟨kv.2⟩
      | none => ⟨"Custom Model did not have Id"⟩

/-- types.rs `Model::parent`. -/
def Model.parent : Model → Id
  | .DialogueFragment _ p _ _ _ _ => p
  | .Hub _ p _ _ _ _ _ => p
  | .FlowFragment p _ _ _ _ _ _ => p
  | .Dialogue _ p _ _ _ _ _ => p
  | .Entity _ p _ _ _ => p
  | .Comment _ p _ _ => p
  | .Condition _ p _ _ _ _ _ _ => p
  | .Instruction _ p _ _ _ _ => p
  | .UserFolder _ p _ => p
  | .Custom _ v =>
      match v.find? (fun kv => kv.1 = "parent") with
      | some kv => ⟨kv.2⟩
      | none => ⟨"Custom Model did not have Parent Id"⟩

/-- types.rs `Model::input_pins` (the spec-modelled `Instruction` variant
carries pins per spec §3, so it is grouped with the pin-bearing variants). -/
def Model.input_pins : Model → Option (List Pin)
  | .FlowFragment _ _ _ _ _ ip _ => some ip
  | .DialogueFragment _ _ _ _ ip _ => some ip
  | .Hub _ _ _ _ _ ip _ => some ip
  | .Dialogue _ _ _ _ _ ip _ => some ip
  | .Condition _ _ _ _ _ _ ip _ => some ip
  | .Instruction _ _ _ _ ip _ => some ip
  | .UserFolder .. | .Comment .. | .Entity .. | .Custom .. => none

/-- types.rs `Model::output_pins`. -/
def Model.output_pins : Model → Option (List Pin)
  | .FlowFragment _ _ _ _ _ _ op => some op
  | .DialogueFragment _ _ _ _ _ op => some op
  | .Hub _ _ _ _ _ _ op => some op
  | .Dialogue _ _ _ _ _ _ op => some op
  | .Condition _ _ _ _ _ _ _ op => some op
  | .Instruction _ _ _ _ _ op => some op
  | .UserFolder .. | .Entity .. | .Comment .. | .Custom .. => none

/-- types.rs `Hierarchy`: the authoring containment tree. -/
inductive Hierarchy where
  | mk : Id → String → Ty → Option (List Hierarchy) → Hierarchy

def Hierarchy.id : Hierarchy → Id
  | .mk i _ _ _ => i

def Hierarchy.technical_name : Hierarchy → String
  | .mk _ t _ _ => t

def Hierarchy.kind : Hierarchy → Ty
  | .mk _ _ k _ => k

def Hierarchy.children : Hierarchy → Option (List Hierarchy)
  | .mk _ _ _ c => c

/-- types.rs `Package`. -/
structure Package where
  name : String
  description : String
  is_default_package : Bool
  models : List Model

/-- types.rs `File`; `settings`, `project`, `global_variables`,
`object_definitions` and `script_methods` are elided (the interpreter
only reads `packages` and `hierarchy`). -/
structure File where
  packages : List Package
  hierarchy : Hierarchy

/-- types.rs `Error`. Note: the enum has no `NoOutputPins` variant. -/
inductive Error where
  | IdNotFound
  | NoModel
  | NoMainFlow
  | NoHierarchy
  | NoCursor
  | NoDefaultPackage
  | NoOutputConnected
  | FailedToSetState
  | FailedToGetState
deriving DecidableEq

/-- How an embedded call can fail: a typed `Err` return, or a Rust panic
(`expect`, `todo!`, `unimplemented!`), which unwinds past all `?`/`.ok()`
handling. -/
inductive Fault where
  | err (e : Error)
  | panic (msg : String)
deriving DecidableEq

/-- lib.rs `Outcome`. -/
inductive Outcome where
  | Advanced (m : Model)
  | WaitingForChoice (ms : List Model)
  | Stopped
  | EndOfDialogue
deriving DecidableEq

/-- lib.rs `Interpreter`. -/
structure Interpreter where
  file : File
  state : Store
  visited : List Id
  finished : List Id
  cursor : Option Id

/-- The panic message of `File::get_default_package`'s `expect`. -/
def defaultPackageMsg : String := "for Articy export to have a \"default\" Package"

/-- The panic message of the `expect` on `model.output_pins()` in
`Interpreter::get_available_connections`. -/
def outputPinsMsg : String := "Model to have output pins"

/-- The panic message of the `expect` on `target_model.input_pins()` in
`Interpreter::get_available_connections`. -/
def inputPinsMsg : String := "Target model to have input pins"

/-- The panic message of the `expect` in `Interpreter::choose`. -/
def chooseExpectMsg : String := "model to be succesfully selected after choice"

/-- The panic message of the `todo!` in the FlowFragment arm of
`Interpreter::advance`. -/
def flowFragmentTodoMsg : String :=
  "not yet implemented: FlowFragment still needs to be implemented in articy-rs"

/-- The panic message of the catch-all `unimplemented!` in
`Interpreter::advance` (the formatted node kind is not reproduced). -/
def advanceUnimplementedMsg : String :=
  "not implemented: Forgot to implement type for Interpreter::advance"

/-- types.rs `File::get_default_package`; the `expect` makes a missing
default package a panic, not a typed error. -/
def File.get_default_package (f : File) : Except Fault Package :=
  match f.packages.find? (fun package => package.is_default_package) with
  | some package => Except.ok package
  | none => Except.error (Fault.panic defaultPackageMsg)

/-- types.rs `File::get_main_flow`. -/
def File.get_main_flow (f : File) : Option Hierarchy :=
  f.hierarchy.children.bind fun items =>
    items.find? fun item =>
      match item.kind with
      | Ty.Flow => true
      | _ => false

/-- types.rs `File::get_dialogues_in_flow`. -/
def File.get_dialogues_in_flow (f : File) (flow_id : Id) : Except Fault (List Model) := do
  let pkg ← f.get_default_package
  return pkg.models.filter fun model =>
    match model with
    | Model.Dialogue _ parent _ _ _ _ _ => decide (parent = flow_id)
    | _ => false

/-- The descent loop of types.rs `File::get_hierarchy`, recursing on the
remaining path. -/
def Hierarchy.descend : Hierarchy → List Id → Option Hierarchy
  | node, [] => some node
  | node, i :: rest => do
    let cs ← node.children
    let child ← cs.find? (fun n => decide (n.id = i))
    Hierarchy.descend child rest

/-- types.rs `File::get_hierarchy`. -/
def File.get_hierarchy (f : File) (path : List Id) : Option Hierarchy :=
  f.hierarchy.descend path

/-- The `while` loop of types.rs `File::get_hierarchy_path_from_model`,
given fuel because a cyclic `parent` chain makes the Rust loop diverge
(`none` = the loop did not terminate within the fuel). -/
def File.pathLoop (f : File) (main_flow_id : Id) :
    Nat → Id → List Id → Option (Except Fault (List Id))
  | fuel, cursor, path =>
    if cursor = main_flow_id then some (Except.ok path.reverse)
    else
      match fuel with
      | 0 => none
      | Nat.succ fuel =>
        match f.get_default_package with
        | Except.error fl => some (Except.error fl)
        | Except.ok pkg =>
          match pkg.models.find? (fun model => decide (model.id = cursor)) with
          | some model => File.pathLoop f main_flow_id fuel model.parent (path ++ [model.parent])
          | none => some (Except.ok path.reverse)

/-- types.rs `File::get_hierarchy_path_from_model`. -/
def File.get_hierarchy_path_from_model (f : File) (model : Model) (fuel : Nat) :
    Option (Except Fault (List Id)) :=
  match f.get_main_flow with
  | none => some (Except.error (Fault.err Error.NoMainFlow))
  | some mainFlow => File.pathLoop f mainFlow.id fuel model.parent [model.id, model.parent]

/-- The playable-kind filter written inline in lib.rs (start, lines 84-90)
and types.rs (get_first_dialogue_fragment_of_dialogue, lines 152-155). -/
def isPlayableKind : Ty → Bool
  | Ty.DialogueFragment | Ty.Condition | Ty.Hub | Ty.FlowFragment => true
  | _ => false

/-- types.rs `File::get_first_dialogue_fragment_of_dialogue`. -/
def File.get_first_dialogue_fragment_of_dialogue (f : File) (model : Model) (fuel : Nat) :
    Option (Except Fault Id) :=
  match f.get_hierarchy_path_from_model model fuel with
  | none => none
  | some (Except.error fl) => some (Except.error fl)
  | some (Except.ok path) =>
    match f.get_hierarchy path with
    | none => some (Except.error (Fault.err Error.NoHierarchy))
    | some h =>
      match h.children with
      | none => some (Except.error (Fault.err Error.NoHierarchy))
      | some children =>
        match children.find? (fun node => isPlayableKind node.kind) with
        | none => some (Except.error (Fault.err Error.NoHierarchy))
        | some node => some (Except.ok node.id)

/-- The `.ok().ok_or(e)?` idiom of lib.rs: any typed error is replaced by
`e`; an `ok` value and a panic pass through unchanged. -/
def remapErr (e : Error) : Except Fault α → Except Fault α
  | Except.ok a => Except.ok a
  | Except.error (Fault.panic m) => Except.error (Fault.panic m)
  | Except.error (Fault.err _) => Except.error (Fault.err e)

/-- lib.rs `Interpreter::get_model`. -/
def Interpreter.get_model (s : Interpreter) (id : Id) : Except Fault Model := do
  let pkg ← s.file.get_default_package
  match pkg.models.find? (fun model => decide (model.id = id)) with
  | some model => return model
  | none => Except.error (Fault.err Error.NoModel)

/-- lib.rs `Interpreter::get_current_model`. -/
def Interpreter.get_current_model (s : Interpreter) : Except Fault Model :=
  match s.cursor with
  | none => Except.error (Fault.err Error.NoCursor)
  | some cursor => s.get_model cursor

/-- The per-connection body of the inner `filter_map` closure in
lib.rs `Interpreter::get_available_connections` (lines 147-173):
`ok none` is a silently skipped connection, `ok (some m)` an included
target, and a missing `input_pins` list on the target panics. -/
def connectionTarget (E : EvalEngine) (f : File) (store : Store)
    (connection : Connection) : Except Fault (Option Model) := do
  let pkg ← f.get_default_package
  match pkg.models.find? (fun model => decide (model.id = connection.target)) with
  | none => return none
  | some target_model =>
    match target_model.input_pins with
    | none => Except.error (Fault.panic inputPinsMsg)
    | some ipins =>
      match ipins.find? (fun pin => decide (pin.id = connection.target_pin)) with
      | none => return none
      | some target_pin =>
        if target_pin.text = "" then return (some target_model)
        else
          match E.eval_boolean_with_context target_pin.text store with
          | Except.ok true => return (some target_model)
          | Except.ok false => return none
          | Except.error _ => return none

/-- The inner `filter_map(..).collect()` over one pin's connections in
`Interpreter::get_available_connections`, in connection order. -/
def collectConnections (E : EvalEngine) (f : File) (store : Store) :
    List Connection → Except Fault (List Model)
  | [] => Except.ok []
  | c :: rest => do
    let o ← connectionTarget E f store c
    let others ← collectConnections E f store rest
    match o with
    | some m => return m :: others
    | none => return others

/-- The outer iteration of `Interpreter::get_available_connections` over
the output pins followed by `flatten`, in pin order. -/
def collectPins (E : EvalEngine) (f : File) (store : Store) :
    List Pin → Except Fault (List Model)
  | [] => Except.ok []
  | pin :: rest => do
    let ms ← collectConnections E f store pin.connections
    let others ← collectPins E f store rest
    return ms ++ others

/-- lib.rs `Interpreter::get_available_connections`. -/
def Interpreter.get_available_connections (E : EvalEngine) (s : Interpreter)
    (model_id : Id) : Except Fault (List Model) := do
  let model ← s.get_model model_id
  match model.output_pins with
  | none => Except.error (Fault.panic outputPinsMsg)
  | some pins => collectPins E s.file s.state pins

/-- lib.rs `Interpreter::get_available_connections_at_cursor`. -/
def Interpreter.get_available_connections_at_cursor (E : EvalEngine)
    (s : Interpreter) : Except Fault (List Model) :=
  match s.cursor with
  | none => Except.error (Fault.err Error.NoCursor)
  | some cursor => s.get_available_connections E cursor

mutual

/-- lib.rs `Interpreter::advance`, with fuel for the mutual recursion with
`post_advance` (`none` = the Rust recursion did not finish in the fuel).
Returns the outcome together with the interpreter state after the call.
The source reads the length of `get_available_connections_at_cursor` and,
in the more-than-one case, calls it a second time for the returned list;
being a `&self` call it returns the same value, so the embedding binds it
once. -/
def Interpreter.advance (E : EvalEngine) : Nat → Interpreter →
    Option (Except Fault Outcome × Interpreter)
  | 0, _ => none
  | Nat.succ fuel, s =>
    match s.cursor with
    | none => some (Except.error (Fault.err Error.NoCursor), s)
    | some cursor =>
      match s.file.get_default_package with
      | Except.error fl => some (Except.error fl, s)
      | Except.ok pkg =>
        match pkg.models.find? (fun model => decide (model.id = cursor)) with
        | none => some (Except.error (Fault.err Error.NoModel), s)
        | some model =>
          match model with
          | Model.Dialogue _ _ _ _ _ _ _ => some (Except.ok Outcome.EndOfDialogue, s)
          | Model.DialogueFragment _ _ _ _ _ output_pins =>
            match remapErr Error.NoOutputConnected (s.get_available_connections_at_cursor E) with
            | Except.error fl => some (Except.error fl, s)
            | Except.ok connections =>
              if connections.length > 1 then
                some (Except.ok (Outcome.WaitingForChoice connections), s)
              else
                match output_pins.head? with
                | none => some (Except.error (Fault.err Error.NoOutputConnected), s)
                | some pin =>
                  match pin.connections.head? with
                  | none => some (Except.error (Fault.err Error.NoOutputConnected), s)
                  | some connection =>
                    Interpreter.post_advance E fuel { s with cursor := some connection.target }
          | Model.Hub _ _ _ _ _ _ _ =>
            match remapErr Error.NoOutputConnected (s.get_available_connections_at_cursor E) with
            | Except.error fl => some (Except.error fl, s)
            | Except.ok choices => some (Except.ok (Outcome.WaitingForChoice choices), s)
          | Model.FlowFragment _ _ _ _ _ _ _ =>
            some (Except.error (Fault.panic flowFragmentTodoMsg), s)
          | Model.Condition _ _ _ _ _ expression _ output_pins =>
            let result :=
              match E.eval_boolean_with_context expression s.state with
              | Except.ok result => result
              | Except.error _ => false
            match (if result then output_pins.head? else output_pins.getLast?) with
            | none => some (Except.error (Fault.err Error.NoOutputConnected), s)
            | some pin =>
              match pin.connections.head? with
              | none => some (Except.error (Fault.err Error.NoOutputConnected), s)
              | some connection =>
                Interpreter.post_advance E fuel { s with cursor := some connection.target }
          | Model.Instruction _ _ _ expression _ output_pins =>
            let res := E.eval_with_context_mut expression s.state
            let s1 := { s with state := res.2 }
            match output_pins.head? with
            | none => some (Except.error (Fault.err Error.NoOutputConnected), s1)
            | some pin =>
              match pin.connections.head? with
              | none => some (Except.error (Fault.err Error.NoOutputConnected), s1)
              | some connection =>
                Interpreter.post_advance E fuel { s1 with cursor := some connection.target }
          | _ => some (Except.error (Fault.panic advanceUnimplementedMsg), s)

/-- lib.rs `Interpreter::post_advance`. -/
def Interpreter.post_advance (E : EvalEngine) : Nat → Interpreter →
    Option (Except Fault Outcome × Interpreter)
  | 0, _ => none
  | Nat.succ fuel, s =>
    match remapErr Error.NoModel s.get_current_model with
    | Except.error fl => some (Except.error fl, s)
    | Except.ok model =>
      match model with
      | Model.Dialogue _ _ _ _ _ _ _ => some (Except.ok Outcome.EndOfDialogue, s)
      | Model.Hub _ _ _ _ _ _ _ =>
        match remapErr Error.NoOutputConnected (s.get_available_connections_at_cursor E) with
        | Except.error fl => some (Except.error fl, s)
        | Except.ok choices => some (Except.ok (Outcome.WaitingForChoice choices), s)
      | Model.Condition _ _ _ _ _ _ _ _ => Interpreter.advance E fuel s
      | _ => some (Except.ok (Outcome.Advanced model), s)

end

/-- lib.rs `Interpreter::choose`; the fuel feeds the `advance` fallback. -/
def Interpreter.choose (E : EvalEngine) (fuel : Nat) (s : Interpreter) (id : Id) :
    Option (Except Fault Outcome × Interpreter) :=
  match remapErr Error.NoOutputConnected (s.get_available_connections_at_cursor E) with
  | Except.error fl => some (Except.error fl, s)
  | Except.ok choices =>
    let filtered := choices.filterMap fun choice =>
      match choice.input_pins with
      | none => none
      | some ipins =>
        match ipins.head? with
        | none => none
        | some firstPin =>
          match decide (firstPin.text = ""),
                E.eval_boolean_with_context firstPin.text s.state with
          | true, _ => some choice
          | false, Except.ok true => some choice
          | _, _ => none
    match filtered.find? (fun choice => decide (choice.id = id)) with
    | some choice =>
      let s1 := { s with cursor := some choice.id }
      match s1.get_current_model with
      | Except.ok model => some (Except.ok (Outcome.Advanced model), s1)
      | Except.error (Fault.panic m) => some (Except.error (Fault.panic m), s1)
      | Except.error (Fault.err _) => some (Except.error (Fault.panic chooseExpectMsg), s1)
    | none => Interpreter.advance E fuel s

/-- lib.rs `Interpreter::start`; the fuel feeds the hierarchy path loop.
The cursor is assigned as soon as the entry model is found, so the later
failure paths leave it on the entry id, as in the source. -/
def Interpreter.start (s : Interpreter) (id : Id) (fuel : Nat) :
    Option (Except Fault Unit × Interpreter) :=
  match s.file.get_default_package with
  | Except.error fl => some (Except.error fl, s)
  | Except.ok pkg =>
    match pkg.models.find? (fun model => decide (model.id = id)) with
    | none => some (Except.error (Fault.err Error.NoModel), s)
    | some entry =>
      let s1 := { s with cursor := some entry.id }
      match s1.get_current_model with
      | Except.error fl => some (Except.error fl, s1)
      | Except.ok model =>
        match model with
        | Model.FlowFragment _ fid _ _ _ _ _ =>
          match s1.file.get_dialogues_in_flow fid with
          | Except.error fl => some (Except.error fl, s1)
          | Except.ok dialogues =>
            match dialogues.head? with
            | none => some (Except.error (Fault.err Error.NoModel), s1)
            | some dialogue =>
              match s1.file.get_hierarchy_path_from_model dialogue fuel with
              | none => none
              | some (Except.error fl) => some (Except.error fl, s1)
              | some (Except.ok path) =>
                match s1.file.get_hierarchy path with
                | none => some (Except.error (Fault.err Error.NoHierarchy), s1)
                | some h =>
                  match h.children with
                  | none => some (Except.error (Fault.err Error.NoHierarchy), s1)
                  | some children =>
                    match children.find? (fun node => isPlayableKind node.kind) with
                    | none => some (Except.error (Fault.err Error.NoHierarchy), s1)
                    | some node => some (Except.ok (), { s1 with cursor := some node.id })
        | Model.Dialogue _ _ _ _ _ _ _ =>
          match s1.file.get_first_dialogue_fragment_of_dialogue model fuel with
          | none => none
          | some (Except.error fl) => some (Except.error fl, s1)
          | some (Except.ok fragId) => some (Except.ok (), { s1 with cursor := some fragId })
        | _ => some (Except.ok (), s1)

/-- Spec §4.1: the target node referenced by a connection, looked up in a
package. -/
def lookupTarget (pkg : Package) (c : Connection) : Option Model :=
  pkg.models.find? (fun model => decide (model.id = c.target))

/-- Spec §4.1: "the gating expression on the input pin named by the
connection's `target_pin`" — the text of that input pin on the target
node, when the whole chain resolves. -/
def lookupGate (pkg : Package) (c : Connection) : Option String := do
  let tm ← lookupTarget pkg c
  let ipins ← tm.input_pins
  let pin ← ipins.find? (fun pin => decide (pin.id = c.target_pin))
  return pin.text

/-- Spec §4.1: a gating expression lets a connection through when it is
the empty string, or evaluates to boolean `true` against the Variable
Store; an evaluation error counts as `false`. -/
def gateOpen (E : EvalEngine) (store : Store) (gate : String) : Bool :=
  gate = "" ||
    match E.eval_boolean_with_context gate store with
    | Except.ok b => b
    | Except.error _ => false

/-- Spec §4.3, Condition row: the boolean a Condition's expression yields
against the Variable Store, an evaluation error treated as `false`. -/
def specCondResult (E : EvalEngine) (store : Store) (expression : String) : Bool :=
  match E.eval_boolean_with_context expression store with
  | Except.ok result => result
  | Except.error _ => false

/-- Spec §4.3, Condition row: the id a Condition routes to — the first
output pin's first connection target when the expression yields `true`,
the last output pin's first connection target otherwise. -/
def condTarget (E : EvalEngine) (store : Store) : Model → Option Id
  | Model.Condition _ _ _ _ _ expression _ output_pins =>
    (if specCondResult E store expression then output_pins.head? else output_pins.getLast?).bind
      fun pin => pin.connections.head?.map (fun connection => connection.target)
  | _ => none

/-- The extra gate `Interpreter::choose` applies on top of the resolved
connections: the candidate's FIRST input pin exists and its expression is
empty or evaluates to `true` (lib.rs lines 187-197). -/
def chooseGate (E : EvalEngine) (store : Store) (m : Model) : Bool :=
  match m.input_pins with
  | none => false
  | some ipins =>
    match ipins.head? with
    | none => false
    | some firstPin =>
      firstPin.text = "" ||
        match E.eval_boolean_with_context firstPin.text store with
        | Except.ok true => true
        | _ => false

/-- A concrete expression engine for witnesses: an expression is the name
of a variable; a Boolean binding evaluates to its value, anything else is
an evaluation error. The mutating entry point always errors and leaves
the store unchanged. -/
def testEngine : EvalEngine where
  eval_boolean_with_context := fun expression store =>
    match store.find? (fun kv => decide (kv.1 = expression)) with
    | some kv =>
      match kv.2 with
      | StateValue.Boolean b => Except.ok b
      | _ => Except.error ()
    | none => Except.error ()
  eval_with_context_mut := fun _ store => (Except.error (), store)

def wMainFlowId : Id := ⟨"MF"⟩

def wDialogueModel : Model := Model.Dialogue ⟨"D"⟩ wMainFlowId "D_tech" "Day 1" "" [] []

def wF1Model : Model :=
  Model.DialogueFragment ⟨"F1"⟩ ⟨"D"⟩ "F1_tech" "line one"
    [{ text := "", id := ⟨"F1in"⟩, owner := ⟨"F1"⟩, connections := [] }]
    [{ text := "", id := ⟨"F1out"⟩, owner := ⟨"F1"⟩,
       connections := [{ label := "", target_pin := ⟨"C1in"⟩, target := ⟨"C1"⟩ }] }]

def wC1Model : Model :=
  Model.Condition ⟨"C1"⟩ ⟨"D"⟩ "C1_tech" "cond one" "" "flag"
    [{ text := "", id := ⟨"C1in"⟩, owner := ⟨"C1"⟩, connections := [] }]
    [{ text := "", id := ⟨"C1outT"⟩, owner := ⟨"C1"⟩,
       connections := [{ label := "", target_pin := ⟨"C2in"⟩, target := ⟨"C2"⟩ }] },
     { text := "", id := ⟨"C1outF"⟩, owner := ⟨"C1"⟩,
       connections := [{ label := "", target_pin := ⟨"F3in"⟩, target := ⟨"F3"⟩ }] }]

def wC2Model : Model :=
  Model.Condition ⟨"C2"⟩ ⟨"D"⟩ "C2_tech" "cond two" "" "flag"
    [{ text := "", id := ⟨"C2in"⟩, owner := ⟨"C2"⟩, connections := [] }]
    [{ text := "", id := ⟨"C2outT"⟩, owner := ⟨"C2"⟩,
       connections := [{ label := "", target_pin := ⟨"F2in"⟩, target := ⟨"F2"⟩ }] },
     { text := "", id := ⟨"C2outF"⟩, owner := ⟨"C2"⟩,
       connections := [{ label := "", target_pin := ⟨"F3in"⟩, target := ⟨"F3"⟩ }] }]

def wF2Model : Model :=
  Model.DialogueFragment ⟨"F2"⟩ ⟨"D"⟩ "F2_tech" "line two"
    [{ text := "", id := ⟨"F2in"⟩, owner := ⟨"F2"⟩, connections := [] }]
    [{ text := "", id := ⟨"F2out"⟩, owner := ⟨"F2"⟩, connections := [] }]

def wF3Model : Model :=
  Model.DialogueFragment ⟨"F3"⟩ ⟨"D"⟩ "F3_tech" "line three"
    [{ text := "", id := ⟨"F3in"⟩, owner := ⟨"F3"⟩, connections := [] }]
    [{ text := "", id := ⟨"F3out"⟩, owner := ⟨"F3"⟩, connections := [] }]

def wHubModel : Model :=
  Model.Hub ⟨"H"⟩ ⟨"D"⟩ "H_tech" "hub" ""
    [{ text := "flag", id := ⟨"Hin"⟩, owner := ⟨"H"⟩, connections := [] }]
    [{ text := "", id := ⟨"Hout"⟩, owner := ⟨"H"⟩, connections := [] }]

def wG1Pins : List Pin :=
  [{ text := "", id := ⟨"G1out"⟩, owner := ⟨"G1"⟩,
     connections := [{ label := "", target_pin := ⟨"C1in"⟩, target := ⟨"C1"⟩ },
                     { label := "", target_pin := ⟨"Hin"⟩, target := ⟨"H"⟩ }] }]

def wG1Model : Model :=
  Model.DialogueFragment ⟨"G1"⟩ ⟨"D"⟩ "G1_tech" "line g"
    [{ text := "", id := ⟨"G1in"⟩, owner := ⟨"G1"⟩, connections := [] }]
    wG1Pins

def wEntityModel : Model := Model.Entity ⟨"E"⟩ ⟨"D"⟩ "E_tech" "npc" ""

def wPkg : Package :=
  { name := "Default", description := "", is_default_package := true,
    models := [wDialogueModel, wF1Model, wC1Model, wC2Model, wF2Model,
      wF3Model, wHubModel, wG1Model, wEntityModel] }

def wFile : File :=
  { packages := [wPkg],
    hierarchy := Hierarchy.mk ⟨"Root"⟩ "" (Ty.Custom "Project")
      (some [Hierarchy.mk wMainFlowId "" Ty.Flow
        (some [Hierarchy.mk ⟨"D"⟩ "" Ty.Dialogue
          (some [Hierarchy.mk ⟨"F1"⟩ "" Ty.DialogueFragment none])])]) }

def wDialogueCursor : Interpreter :=
  { file := wFile, state := [], visited := [], finished := [], cursor := some ⟨"D"⟩ }

def wStore : Store := [("flag", StateValue.Boolean true)]

def wRunner : Interpreter :=
  { file := wFile, state := wStore, visited := [], finished := [], cursor := none }

def wF2Pins : List Pin := [{ text := "", id := ⟨"F2out"⟩, owner := ⟨"F2"⟩, connections := [] }]

def wDanglingConn : Connection := { label := "", target_pin := ⟨"Xin"⟩, target := ⟨"missing"⟩ }

def wB1Conn : Connection := { label := "", target_pin := ⟨"B2in"⟩, target := ⟨"B2"⟩ }

def wB1OutPin : Pin := { text := "", id := ⟨"B1out"⟩, owner := ⟨"B1"⟩, connections := [wB1Conn] }

def wB1Model : Model :=
  Model.DialogueFragment ⟨"B1"⟩ ⟨"BD"⟩ "B1_tech" "line b1"
    [{ text := "", id := ⟨"B1in"⟩, owner := ⟨"B1"⟩, connections := [] }]
    [wB1OutPin]

def wB2Model : Model :=
  Model.DialogueFragment ⟨"B2"⟩ ⟨"BD"⟩ "B2_tech" "line b2"
    [{ text := "blocked", id := ⟨"B2in"⟩, owner := ⟨"B2"⟩, connections := [] }]
    [{ text := "", id := ⟨"B2out"⟩, owner := ⟨"B2"⟩, connections := [] }]

def wBPkg : Package :=
  { name := "Default", description := "", is_default_package := true,
    models := [wB1Model, wB2Model] }

def wBFile : File :=
  { packages := [wBPkg],
    hierarchy := Hierarchy.mk ⟨"Root"⟩ "" (Ty.Custom "Project") none }

def wAtB1 : Interpreter :=
  { file := wBFile, state := [], visited := [], finished := [], cursor := some ⟨"B1"⟩ }

def wAtC1 : Interpreter :=
  { file := wFile, state := wStore, visited := [], finished := [], cursor := some ⟨"C1"⟩ }

def wC1PinT : Pin :=
  { text := "", id := ⟨"C1outT"⟩, owner := ⟨"C1"⟩,
    connections := [{ label := "", target_pin := ⟨"C2in"⟩, target := ⟨"C2"⟩ }] }

def wC1PinF : Pin :=
  { text := "", id := ⟨"C1outF"⟩, owner := ⟨"C1"⟩,
    connections := [{ label := "", target_pin := ⟨"F3in"⟩, target := ⟨"F3"⟩ }] }

def wF1Conn : Connection := { label := "", target_pin := ⟨"C1in"⟩, target := ⟨"C1"⟩ }

def wF1OutPin : Pin :=
  { text := "", id := ⟨"F1out"⟩, owner := ⟨"F1"⟩, connections := [wF1Conn] }

def wAtF1 : Interpreter :=
  { file := wFile, state := wStore, visited := [], finished := [], cursor := some ⟨"F1"⟩ }

def wTModel : Model :=
  Model.DialogueFragment ⟨"T"⟩ ⟨"XD"⟩ "T_tech" "line t"
    [{ text := "blocked", id := ⟨"TinA"⟩, owner := ⟨"T"⟩, connections := [] },
     { text := "", id := ⟨"TinB"⟩, owner := ⟨"T"⟩, connections := [] }]
    [{ text := "", id := ⟨"Tout"⟩, owner := ⟨"T"⟩, connections := [] }]

def wX0Model : Model :=
  Model.Hub ⟨"X0"⟩ ⟨"XD"⟩ "X0_tech" "hub x" ""
    [{ text := "", id := ⟨"X0in"⟩, owner := ⟨"X0"⟩, connections := [] }]
    [{ text := "", id := ⟨"X0out"⟩, owner := ⟨"X0"⟩,
       connections := [{ label := "", target_pin := ⟨"TinB"⟩, target := ⟨"T"⟩ }] }]

def wXPkg : Package :=
  { name := "Default", description := "", is_default_package := true,
    models := [wX0Model, wTModel] }

def wXFile : File :=
  { packages := [wXPkg],
    hierarchy := Hierarchy.mk ⟨"Root"⟩ "" (Ty.Custom "Project") none }

def wAtX0 : Interpreter :=
  { file := wXFile, state := [], visited := [], finished := [], cursor := some ⟨"X0"⟩ }

def wAtG1 : Interpreter :=
  { file := wFile, state := wStore, visited := [], finished := [], cursor := some ⟨"G1"⟩ }

/-- The two node kinds `start` treats as containers (spec §4.3). -/
def isStartContainer : Model → Bool
  | Model.Dialogue _ _ _ _ _ _ _ => true
  | Model.FlowFragment _ _ _ _ _ _ _ => true
  | _ => false

def c6FD1Hierarchy : Hierarchy := Hierarchy.mk ⟨"FD1"⟩ "" Ty.DialogueFragment none

def c6DHierarchy : Hierarchy := Hierarchy.mk ⟨"DD"⟩ "" Ty.Dialogue (some [c6FD1Hierarchy])

def c6FFChildren : List Hierarchy := [c6DHierarchy]

def c6FFHierarchy : Hierarchy := Hierarchy.mk ⟨"FF"⟩ "" Ty.FlowFragment (some c6FFChildren)

def c6FFModel : Model := Model.FlowFragment ⟨"MF2"⟩ ⟨"FF"⟩ "FF_tech" "flow frag" "" [] []

def c6DModel : Model := Model.Dialogue ⟨"DD"⟩ ⟨"FF"⟩ "DD_tech" "inner dialogue" "" [] []

def c6FD1Model : Model := Model.DialogueFragment ⟨"FD1"⟩ ⟨"DD"⟩ "FD1_tech" "line fd1" [] []

def c6Pkg : Package :=
  { name := "Default", description := "", is_default_package := true,
    models := [c6FFModel, c6DModel, c6FD1Model] }

def c6File : File :=
  { packages := [c6Pkg],
    hierarchy := Hierarchy.mk ⟨"Root"⟩ "" (Ty.Custom "Project")
      (some [Hierarchy.mk ⟨"MF2"⟩ "" Ty.Flow (some [c6FFHierarchy])]) }

def c6Runner : Interpreter :=
  { file := c6File, state := [], visited := [], finished := [], cursor := none }

/-- C9: for a fixed Variable Store and a fixed cursor,
`get_available_connections_at_cursor` returns the same sequence of target
nodes on every call. In the embedding the Rust `&self` receiver becomes a
pure function of the interpreter state, so the call cannot mutate it; the
theorem states that its result is a function of the file, the Variable
Store and the cursor alone — two consecutive calls, and calls from any
two states agreeing on those three components, return the same sequence. -/
theorem claim_C9 (E : EvalEngine) (f : File) (store : Store)
    (v1 fin1 v2 fin2 : List Id) (cursor : Option Id) :
    Interpreter.get_available_connections_at_cursor E ⟨f, store, v1, fin1, cursor⟩ =
    Interpreter.get_available_connections_at_cursor E ⟨f, store, v2, fin2, cursor⟩ := rfl

/-- C8: `advance()` with the cursor on a Dialogue node returns
`EndOfDialogue` and the interpreter state — the cursor included — is
unchanged by the call. -/
theorem claim_C8 (E : EvalEngine) (n : Nat) (s : Interpreter) (cursor : Id)
    (pkg : Package) (i p : Id) (tn dn tx : String) (ipins opins : List Pin)
    (hc : s.cursor = some cursor)
    (hpkg : s.file.get_default_package = Except.ok pkg)
    (hfind : pkg.models.find? (fun model => decide (model.id = cursor)) =
      some (Model.Dialogue i p tn dn tx ipins opins)) :
    Interpreter.advance E (n + 1) s = some (Except.ok Outcome.EndOfDialogue, s) := by
  simp only [Interpreter.advance, hc, hpkg, hfind]

/-- C8 witness: the Dialogue-cursor terminal step evaluated on a concrete
one-dialogue project. -/
theorem claim_C8_witness :
    Interpreter.advance testEngine 1 wDialogueCursor =
      some (Except.ok Outcome.EndOfDialogue, wDialogueCursor) :=
  claim_C8 testEngine 0 wDialogueCursor ⟨"D"⟩ wPkg ⟨"D"⟩ wMainFlowId
    "D_tech" "Day 1" "" [] [] rfl rfl rfl

@[simp] lemma ok_bind {α β : Type} (a : α) (f : α → Except Fault β) :
    (Except.ok a : Except Fault α) >>= f = f a := rfl

@[simp] lemma error_bind {α β : Type} (e : Fault) (f : α → Except Fault β) :
    (Except.error e : Except Fault α) >>= f = Except.error e := rfl

@[simp] lemma pure_ok {α : Type} (a : α) :
    (pure a : Except Fault α) = Except.ok a := rfl

lemma connectionTarget_resolved (E : EvalEngine) (f : File) (store : Store)
    (pkg : Package) (c : Connection) (gate : String)
    (hpkg : f.get_default_package = Except.ok pkg)
    (hg : lookupGate pkg c = some gate) :
    connectionTarget E f store c =
      Except.ok (if gateOpen E store gate then lookupTarget pkg c else none) := by
  cases htm : lookupTarget pkg c with
  | none => simp [lookupGate, htm] at hg
  | some tm =>
    cases hip : tm.input_pins with
    | none => simp [lookupGate, htm, hip] at hg
    | some ipins =>
      cases hpin : ipins.find? (fun pin => decide (pin.id = c.target_pin)) with
      | none => simp [lookupGate, htm, hip, hpin] at hg
      | some pin =>
        have hgate : gate = pin.text := by
          simp [lookupGate, htm, hip, hpin] at hg
          exact hg.symm
        subst hgate
        have htm' : pkg.models.find? (fun model => decide (model.id = c.target)) = some tm := htm
        unfold connectionTarget
        rw [hpkg]
        simp only [ok_bind, htm', hip, hpin]
        unfold gateOpen
        by_cases he : pin.text = ""
        · simp [he, htm]
        · rw [if_neg he]
          cases hev : E.eval_boolean_with_context pin.text store with
          | ok b =>
            cases b with
            | true => simp [htm, he, hev]
            | false => simp [htm, he, hev]
          | error u => simp [htm, he, hev]

lemma collectConnections_resolved (E : EvalEngine) (f : File) (store : Store)
    (pkg : Package)
    (hpkg : f.get_default_package = Except.ok pkg)
    (cs : List Connection)
    (h : ∀ c ∈ cs, (lookupGate pkg c).isSome) :
    collectConnections E f store cs =
      Except.ok (cs.filterMap fun c =>
        match lookupGate pkg c with
        | some gate => if gateOpen E store gate then lookupTarget pkg c else none
        | none => none) := by
  induction cs with
  | nil => rfl
  | cons c rest ih =>
    obtain ⟨gate, hg⟩ := Option.isSome_iff_exists.mp (h c (List.mem_cons_self c rest))
    have hrest := ih (fun c' hc' => h c' (List.mem_cons_of_mem c hc'))
    rw [collectConnections, connectionTarget_resolved E f store pkg c gate hpkg hg, hrest]
    simp only [ok_bind, List.filterMap_cons, hg]
    by_cases ho : gateOpen E store gate
    · cases htm : lookupTarget pkg c with
      | none =>
        exfalso
        simp [lookupGate, htm] at hg
      | some tm => simp [ho, htm]
    · simp [ho]

lemma collectPins_resolved (E : EvalEngine) (f : File) (store : Store)
    (pkg : Package)
    (hpkg : f.get_default_package = Except.ok pkg)
    (pins : List Pin)
    (h : ∀ pin ∈ pins, ∀ c ∈ pin.connections, (lookupGate pkg c).isSome) :
    collectPins E f store pins =
      Except.ok (pins.flatMap fun pin => pin.connections.filterMap fun c =>
        match lookupGate pkg c with
        | some gate => if gateOpen E store gate then lookupTarget pkg c else none
        | none => none) := by
  induction pins with
  | nil => rfl
  | cons pin rest ih =>
    have hpin := h pin (List.mem_cons_self pin rest)
    have hrest := ih (fun p hp => h p (List.mem_cons_of_mem pin hp))
    rw [collectPins, collectConnections_resolved E f store pkg hpkg pin.connections hpin, hrest]
    simp [List.flatMap_cons]

/-- C1: for a node with output pins whose connections all resolve (the
target model exists and carries the input pin named by `target_pin`),
`get_available_connections` returns exactly the targets whose gating
expression is the empty string or evaluates to boolean `true` against the
current Variable Store — an evaluation error counting as `false` with no
error surfaced to the caller — flattened in output-pin order then
connection order, duplicates permitted. -/
theorem claim_C1 (E : EvalEngine) (s : Interpreter) (model_id : Id)
    (pkg : Package) (model : Model) (pins : List Pin)
    (hpkg : s.file.get_default_package = Except.ok pkg)
    (hfind : pkg.models.find? (fun m => decide (m.id = model_id)) = some model)
    (hpins : model.output_pins = some pins)
    (hres : ∀ pin ∈ pins, ∀ c ∈ pin.connections, (lookupGate pkg c).isSome) :
    Interpreter.get_available_connections E s model_id =
      Except.ok (pins.flatMap fun pin => pin.connections.filterMap fun c =>
        match lookupGate pkg c with
        | some gate => if gateOpen E s.state gate then lookupTarget pkg c else none
        | none => none) := by
  unfold Interpreter.get_available_connections Interpreter.get_model
  rw [hpkg]
  simp only [ok_bind, pure_ok, hfind, hpins]
  exact collectPins_resolved E s.file s.state pkg hpkg pins hres

/-- C1 witness: a fragment with one output pin carrying two connections,
one gated by the empty string and one by the expression `flag`; with
`flag = true` in the store both targets are returned, in connection
order. -/
theorem claim_C1_witness :
    Interpreter.get_available_connections testEngine wRunner ⟨"G1"⟩ =
      Except.ok [wC1Model, wHubModel] := by
  rw [claim_C1 testEngine wRunner ⟨"G1"⟩ wPkg wG1Model wG1Pins rfl rfl rfl (by decide)]
  rfl

lemma collectConnections_allSkipped (E : EvalEngine) (f : File) (store : Store)
    (cs : List Connection)
    (h : ∀ c ∈ cs, connectionTarget E f store c = Except.ok none) :
    collectConnections E f store cs = Except.ok [] := by
  induction cs with
  | nil => rfl
  | cons c rest ih =>
    rw [collectConnections, h c (List.mem_cons_self c rest),
      ih (fun c' hc' => h c' (List.mem_cons_of_mem c hc'))]
    rfl

lemma collectPins_allSkipped (E : EvalEngine) (f : File) (store : Store)
    (pins : List Pin)
    (h : ∀ pin ∈ pins, ∀ c ∈ pin.connections, connectionTarget E f store c = Except.ok none) :
    collectPins E f store pins = Except.ok [] := by
  induction pins with
  | nil => rfl
  | cons pin rest ih =>
    rw [collectPins,
      collectConnections_allSkipped E f store pin.connections (h pin (List.mem_cons_self pin rest)),
      ih (fun p hp => h p (List.mem_cons_of_mem pin hp))]
    rfl

/-- C10: a connection whose target id matches no model in the default
package, or whose `target_pin` matches no input pin of a pin-bearing
target model, is silently skipped: the per-connection resolver yields
`ok none` (no error), and removing such a connection from any connection
list leaves the collected sequence unchanged. -/
theorem claim_C10 (E : EvalEngine) (f : File) (store : Store)
    (pkg : Package) (c : Connection)
    (hpkg : f.get_default_package = Except.ok pkg)
    (h : lookupTarget pkg c = none ∨
      ∃ tm ipins, lookupTarget pkg c = some tm ∧ tm.input_pins = some ipins ∧
        ipins.find? (fun pin => decide (pin.id = c.target_pin)) = none) :
    connectionTarget E f store c = Except.ok none ∧
    ∀ l1 l2 : List Connection,
      collectConnections E f store (l1 ++ c :: l2) =
        collectConnections E f store (l1 ++ l2) := by
  have hct : connectionTarget E f store c = Except.ok none := by
    unfold connectionTarget
    rw [hpkg]
    rcases h with htm | ⟨tm, ipins, htm, hip, hpin⟩
    · unfold lookupTarget at htm
      simp [ok_bind, htm]
    · unfold lookupTarget at htm
      simp [ok_bind, htm, hip, hpin]
  refine ⟨hct, ?_⟩
  intro l1 l2
  induction l1 with
  | nil =>
    simp only [List.nil_append]
    rw [collectConnections, hct]
    simp only [ok_bind]
    cases hrest : collectConnections E f store l2 with
    | ok ms => simp
    | error fl => simp
  | cons c' rest ih =>
    simp only [List.cons_append]
    rw [collectConnections, collectConnections, ih]

/-- C10 witness: a connection to the non-existent model id `missing` is
skipped, and contributes nothing to a connection list it sits in. -/
theorem claim_C10_witness :
    connectionTarget testEngine wFile wStore wDanglingConn = Except.ok none ∧
    collectConnections testEngine wFile wStore [wDanglingConn] =
      collectConnections testEngine wFile wStore [] :=
  ⟨(claim_C10 testEngine wFile wStore wPkg wDanglingConn rfl (Or.inl rfl)).1,
   (claim_C10 testEngine wFile wStore wPkg wDanglingConn rfl (Or.inl rfl)).2 [] []⟩

/-- C4 amended: types.rs' `Error` enum has no `NoOutputPins` variant and
`get_available_connections` never returns a typed error for a pin-less
node; instead the `expect` on `output_pins()` panics with "Model to have
output pins". A node whose output pins yield zero enabled targets remains
a valid non-error state returning the empty sequence. -/
theorem claim_C4_amended :
    (∀ (E : EvalEngine) (s : Interpreter) (model_id : Id) (pkg : Package) (model : Model),
      s.file.get_default_package = Except.ok pkg →
      pkg.models.find? (fun m => decide (m.id = model_id)) = some model →
      model.output_pins = none →
      Interpreter.get_available_connections E s model_id =
        Except.error (Fault.panic outputPinsMsg)) ∧
    (∀ (E : EvalEngine) (s : Interpreter) (model_id : Id) (pkg : Package) (model : Model)
        (pins : List Pin),
      s.file.get_default_package = Except.ok pkg →
      pkg.models.find? (fun m => decide (m.id = model_id)) = some model →
      model.output_pins = some pins →
      (∀ pin ∈ pins, ∀ c ∈ pin.connections,
        connectionTarget E s.file s.state c = Except.ok none) →
      Interpreter.get_available_connections E s model_id = Except.ok []) := by
  constructor
  · intro E s model_id pkg model hpkg hfind hpins
    unfold Interpreter.get_available_connections Interpreter.get_model
    rw [hpkg]
    simp only [ok_bind, pure_ok, hfind, hpins]
  · intro E s model_id pkg model pins hpkg hfind hpins h
    unfold Interpreter.get_available_connections Interpreter.get_model
    rw [hpkg]
    simp only [ok_bind, pure_ok, hfind, hpins]
    exact collectPins_allSkipped E s.file s.state pins h

/-- C4 counterexample: resolving the outgoing targets of the Entity node
`E` (which has no output pins) does not signal any typed error — there is
no `NoOutputPins` variant to signal — it panics with "Model to have
output pins". -/
theorem claim_C4_counterexample :
    Interpreter.get_available_connections testEngine wRunner ⟨"E"⟩ =
      Except.error (Fault.panic outputPinsMsg) ∧
    ∀ e : Error, Interpreter.get_available_connections testEngine wRunner ⟨"E"⟩ ≠
      Except.error (Fault.err e) := by
  refine ⟨rfl, ?_⟩
  intro e h
  rw [show Interpreter.get_available_connections testEngine wRunner ⟨"E"⟩ =
    Except.error (Fault.panic outputPinsMsg) from rfl] at h
  simp at h

/-- C4 witness: the panic on the pin-less Entity node and the empty (but
`ok`) result on fragment `F2`, whose single output pin has no enabled
connection. -/
theorem claim_C4_witness :
    Interpreter.get_available_connections testEngine wRunner ⟨"E"⟩ =
      Except.error (Fault.panic outputPinsMsg) ∧
    Interpreter.get_available_connections testEngine wRunner ⟨"F2"⟩ = Except.ok [] :=
  ⟨claim_C4_amended.1 testEngine wRunner ⟨"E"⟩ wPkg wEntityModel rfl rfl rfl,
   claim_C4_amended.2 testEngine wRunner ⟨"F2"⟩ wPkg wF2Model wF2Pins rfl rfl rfl
     (by
       intro pin hp c hc
       simp only [wF2Pins, List.mem_singleton] at hp
       subst hp
       simp at hc)⟩

@[simp] lemma remapErr_ok {α : Type} (e : Error) (a : α) :
    remapErr e (Except.ok a) = Except.ok a := rfl

/-- C2 amended: with the cursor on a DialogueFragment whose resolution
succeeds, `advance()` returns `WaitingForChoice` without moving the
cursor when more than one target is enabled; in every other case — one
enabled target or zero — it moves the cursor to the first connection
target of the FIRST output pin (whether or not that target is the enabled
one) and applies post-advance dispatch; `NoOutputConnected` is returned
only when the first output pin is missing or has no connection at all. -/
theorem claim_C2_amended (E : EvalEngine) (n : Nat) (s : Interpreter) (cursor : Id)
    (pkg : Package) (i p : Id) (tn tx : String) (ipins opins : List Pin)
    (conns : List Model)
    (hc : s.cursor = some cursor)
    (hpkg : s.file.get_default_package = Except.ok pkg)
    (hfind : pkg.models.find? (fun m => decide (m.id = cursor)) =
      some (Model.DialogueFragment i p tn tx ipins opins))
    (hconns : Interpreter.get_available_connections_at_cursor E s = Except.ok conns) :
    (conns.length > 1 →
      Interpreter.advance E (n + 1) s =
        some (Except.ok (Outcome.WaitingForChoice conns), s)) ∧
    (∀ pin conn, conns.length ≤ 1 → opins.head? = some pin →
      pin.connections.head? = some conn →
      Interpreter.advance E (n + 1) s =
        Interpreter.post_advance E n { s with cursor := some conn.target }) ∧
    (conns.length ≤ 1 →
      (opins.head? = none ∨ ∃ pin, opins.head? = some pin ∧ pin.connections.head? = none) →
      Interpreter.advance E (n + 1) s =
        some (Except.error (Fault.err Error.NoOutputConnected), s)) := by
  refine ⟨?_, ?_, ?_⟩
  · intro hlen
    simp only [Interpreter.advance, hc, hpkg, hfind, hconns, remapErr_ok]
    rw [if_pos hlen]
  · intro pin conn hlen hpin hconn
    simp only [Interpreter.advance, hc, hpkg, hfind, hconns, remapErr_ok]
    rw [if_neg (by omega)]
    simp only [hpin, hconn]
  · intro hlen hzero
    simp only [Interpreter.advance, hc, hpkg, hfind, hconns, remapErr_ok]
    rw [if_neg (by omega)]
    rcases hzero with hpin | ⟨pin, hpin, hconn⟩
    · simp only [hpin]
    · simp only [hpin, hconn]

/-- C2 counterexample: fragment `B1`'s only outgoing connection is gated
by the expression `blocked`, which evaluates with an error (no such
variable), so zero targets are enabled — yet `advance()` does not fail
with `NoOutputConnected`: it silently moves the cursor to the disabled
target `B2` and returns `Advanced(B2)`. -/
theorem claim_C2_counterexample :
    Interpreter.get_available_connections_at_cursor testEngine wAtB1 = Except.ok [] ∧
    Interpreter.advance testEngine 2 wAtB1 =
      some (Except.ok (Outcome.Advanced wB2Model), { wAtB1 with cursor := some ⟨"B2"⟩ }) ∧
    ∀ s' : Interpreter, Interpreter.advance testEngine 2 wAtB1 ≠
      some (Except.error (Fault.err Error.NoOutputConnected), s') := by
  refine ⟨rfl, rfl, ?_⟩
  intro s' h
  rw [show Interpreter.advance testEngine 2 wAtB1 =
    some (Except.ok (Outcome.Advanced wB2Model), { wAtB1 with cursor := some ⟨"B2"⟩ })
    from rfl] at h
  simp at h

/-- C2 witness: the zero-enabled-targets case of the amended claim on the
concrete `B1` world — the call advances into post-advance dispatch with
the cursor on `B2`. -/
theorem claim_C2_witness :
    Interpreter.advance testEngine 2 wAtB1 =
      Interpreter.post_advance testEngine 1 { wAtB1 with cursor := some ⟨"B2"⟩ } :=
  ((claim_C2_amended testEngine 1 wAtB1 ⟨"B1"⟩ wBPkg ⟨"B1"⟩ ⟨"BD"⟩ "B1_tech" "line b1"
    [{ text := "", id := ⟨"B1in"⟩, owner := ⟨"B1"⟩, connections := [] }]
    [wB1OutPin] [] rfl rfl rfl rfl).2.1) wB1OutPin wB1Conn (by decide) rfl rfl

/-- C5: with the cursor on a Condition node, `advance()` evaluates the
node's expression against the Variable Store (an evaluation error counted
as `false`); when the result is `true` the cursor moves to the first
output pin's connection target, otherwise to the last output pin's
connection target, and in both cases the call immediately continues as
post-advance dispatch — the Condition itself is never returned as a
discrete outcome. -/
theorem claim_C5 (E : EvalEngine) (n : Nat) (s : Interpreter) (cursor : Id)
    (pkg : Package) (i p : Id) (tn dn tx expression : String) (ipins opins : List Pin)
    (hc : s.cursor = some cursor)
    (hpkg : s.file.get_default_package = Except.ok pkg)
    (hfind : pkg.models.find? (fun m => decide (m.id = cursor)) =
      some (Model.Condition i p tn dn tx expression ipins opins)) :
    (∀ pin conn, specCondResult E s.state expression = true →
      opins.head? = some pin → pin.connections.head? = some conn →
      Interpreter.advance E (n + 1) s =
        Interpreter.post_advance E n { s with cursor := some conn.target }) ∧
    (∀ pin conn, specCondResult E s.state expression = false →
      opins.getLast? = some pin → pin.connections.head? = some conn →
      Interpreter.advance E (n + 1) s =
        Interpreter.post_advance E n { s with cursor := some conn.target }) := by
  constructor
  · intro pin conn hres hpin hconn
    unfold specCondResult at hres
    simp only [Interpreter.advance, hc, hpkg, hfind]
    cases hev : E.eval_boolean_with_context expression s.state with
    | ok b =>
      rw [hev] at hres
      simp at hres
      subst hres
      simp only [hev, if_true, hpin, hconn]
    | error u =>
      rw [hev] at hres
      simp at hres
  · intro pin conn hres hpin hconn
    unfold specCondResult at hres
    simp only [Interpreter.advance, hc, hpkg, hfind]
    cases hev : E.eval_boolean_with_context expression s.state with
    | ok b =>
      rw [hev] at hres
      simp at hres
      subst hres
      simp [hev, hpin, hconn]
    | error u =>
      simp [hev, hpin, hconn]

/-- C5 witness: on condition `C1` (expression `flag`) with `flag = true`,
a step routes to the first output pin's connection target `C2` and
continues as post-advance dispatch. -/
theorem claim_C5_witness :
    Interpreter.advance testEngine 2 wAtC1 =
      Interpreter.post_advance testEngine 1 { wAtC1 with cursor := some ⟨"C2"⟩ } :=
  (claim_C5 testEngine 1 wAtC1 ⟨"C1"⟩ wPkg ⟨"C1"⟩ ⟨"D"⟩ "C1_tech" "cond one" "" "flag"
    [{ text := "", id := ⟨"C1in"⟩, owner := ⟨"C1"⟩, connections := [] }]
    [wC1PinT, wC1PinF] rfl rfl rfl).1 wC1PinT
    { label := "", target_pin := ⟨"C2in"⟩, target := ⟨"C2"⟩ } rfl rfl rfl

lemma get_current_model_eq (s : Interpreter) (cursor : Id) (pkg : Package) (model : Model)
    (hc : s.cursor = some cursor)
    (hpkg : s.file.get_default_package = Except.ok pkg)
    (hfind : pkg.models.find? (fun m => decide (m.id = cursor)) = some model) :
    s.get_current_model = Except.ok model := by
  unfold Interpreter.get_current_model Interpreter.get_model
  rw [hc, hpkg]
  simp only [ok_bind, pure_ok, hfind]

lemma advance_fragment_one (E : EvalEngine) (n : Nat) (s : Interpreter) (cursor : Id)
    (pkg : Package) (i p : Id) (tn tx : String) (ipins opins : List Pin)
    (conns : List Model) (pin : Pin) (conn : Connection)
    (hc : s.cursor = some cursor)
    (hpkg : s.file.get_default_package = Except.ok pkg)
    (hfind : pkg.models.find? (fun m => decide (m.id = cursor)) =
      some (Model.DialogueFragment i p tn tx ipins opins))
    (hconns : Interpreter.get_available_connections_at_cursor E s = Except.ok conns)
    (hlen : conns.length ≤ 1)
    (hpin : opins.head? = some pin)
    (hconn : pin.connections.head? = some conn) :
    Interpreter.advance E (n + 1) s =
      Interpreter.post_advance E n { s with cursor := some conn.target } := by
  simp only [Interpreter.advance, hc, hpkg, hfind, hconns, remapErr_ok]
  rw [if_neg (by omega)]
  simp only [hpin, hconn]

lemma advance_condition_route (E : EvalEngine) (n : Nat) (s : Interpreter) (cursor : Id)
    (pkg : Package) (i p : Id) (tn dn tx expression : String) (ipins opins : List Pin)
    (target : Id)
    (hc : s.cursor = some cursor)
    (hpkg : s.file.get_default_package = Except.ok pkg)
    (hfind : pkg.models.find? (fun m => decide (m.id = cursor)) =
      some (Model.Condition i p tn dn tx expression ipins opins))
    (hroute : condTarget E s.state (Model.Condition i p tn dn tx expression ipins opins) =
      some target) :
    Interpreter.advance E (n + 1) s =
      Interpreter.post_advance E n { s with cursor := some target } := by
  rw [show condTarget E s.state (Model.Condition i p tn dn tx expression ipins opins) =
    (if specCondResult E s.state expression = true then opins.head? else opins.getLast?).bind
      (fun pin => Option.map (fun connection => connection.target) pin.connections.head?)
    from rfl] at hroute
  obtain ⟨pin, hpinSel, hconnBind⟩ : ∃ pin,
      (if specCondResult E s.state expression = true then opins.head? else opins.getLast?) =
        some pin ∧
      Option.map (fun connection => connection.target) pin.connections.head? = some target := by
    cases hsel : (if specCondResult E s.state expression = true then opins.head?
        else opins.getLast?) with
    | none => rw [hsel] at hroute; simp at hroute
    | some pin =>
      rw [hsel] at hroute
      simp only [Option.some_bind] at hroute
      exact ⟨pin, rfl, hroute⟩
  obtain ⟨conn, hconn, htgt⟩ : ∃ conn, pin.connections.head? = some conn ∧
      conn.target = target := by
    cases hcn : pin.connections.head? with
    | none => rw [hcn] at hconnBind; simp at hconnBind
    | some conn =>
      rw [hcn] at hconnBind
      simp at hconnBind
      exact ⟨conn, rfl, hconnBind⟩
  simp only [Interpreter.advance, hc, hpkg, hfind]
  cases hev : E.eval_boolean_with_context expression s.state with
  | ok b =>
    have hspec : specCondResult E s.state expression = b := by
      unfold specCondResult
      rw [hev]
    rw [hspec] at hpinSel
    simp only [hev]
    rw [hpinSel]
    simp only [hconn, htgt]
  | error u =>
    have hspec : specCondResult E s.state expression = false := by
      unfold specCondResult
      rw [hev]
    rw [hspec] at hpinSel
    simp only [Bool.false_eq_true, if_false] at hpinSel
    simp only [hev, Bool.false_eq_true, if_false, hpinSel, hconn, htgt]

lemma post_advance_condition (E : EvalEngine) (n : Nat) (s : Interpreter) (cursor : Id)
    (pkg : Package) (i p : Id) (tn dn tx expression : String) (ipins opins : List Pin)
    (hc : s.cursor = some cursor)
    (hpkg : s.file.get_default_package = Except.ok pkg)
    (hfind : pkg.models.find? (fun m => decide (m.id = cursor)) =
      some (Model.Condition i p tn dn tx expression ipins opins)) :
    Interpreter.post_advance E (n + 1) s = Interpreter.advance E n s := by
  have hcm := get_current_model_eq s cursor pkg _ hc hpkg hfind
  simp only [Interpreter.post_advance, hcm, remapErr_ok]

lemma post_advance_fragment (E : EvalEngine) (n : Nat) (s : Interpreter) (cursor : Id)
    (pkg : Package) (i p : Id) (tn tx : String) (ipins opins : List Pin)
    (hc : s.cursor = some cursor)
    (hpkg : s.file.get_default_package = Except.ok pkg)
    (hfind : pkg.models.find? (fun m => decide (m.id = cursor)) =
      some (Model.DialogueFragment i p tn tx ipins opins)) :
    Interpreter.post_advance E (n + 1) s =
      some (Except.ok (Outcome.Advanced (Model.DialogueFragment i p tn tx ipins opins)), s) := by
  have hcm := get_current_model_eq s cursor pkg _ hc hpkg hfind
  simp only [Interpreter.post_advance, hcm, remapErr_ok]

/-- C7: for a chain DialogueFragment → Condition → Condition →
DialogueFragment in which the first fragment has exactly one enabled
target and each Condition routes (per its expression) to the next link, a
single `advance()` call from the first fragment lands the cursor on the
final fragment and returns `Advanced` of it; no intermediate Condition is
ever returned as a discrete outcome. -/
theorem claim_C7 (E : EvalEngine) (n : Nat) (s : Interpreter)
    (pkg : Package) (f1 c1 c2 f2 : Id)
    (i1 p1 : Id) (tn1 tx1 : String) (ip1 op1 : List Pin) (pin1 : Pin) (conn1 : Connection)
    (t : Model)
    (i2 p2 : Id) (tn2 dn2 tx2 e2 : String) (ip2 op2 : List Pin)
    (i3 p3 : Id) (tn3 dn3 tx3 e3 : String) (ip3 op3 : List Pin)
    (i4 p4 : Id) (tn4 tx4 : String) (ip4 op4 : List Pin)
    (hc : s.cursor = some f1)
    (hpkg : s.file.get_default_package = Except.ok pkg)
    (hF1 : pkg.models.find? (fun m => decide (m.id = f1)) =
      some (Model.DialogueFragment i1 p1 tn1 tx1 ip1 op1))
    (hconns : Interpreter.get_available_connections_at_cursor E s = Except.ok [t])
    (hpin1 : op1.head? = some pin1)
    (hconn1 : pin1.connections.head? = some conn1)
    (ht1 : conn1.target = c1)
    (hC1 : pkg.models.find? (fun m => decide (m.id = c1)) =
      some (Model.Condition i2 p2 tn2 dn2 tx2 e2 ip2 op2))
    (hroute1 : condTarget E s.state (Model.Condition i2 p2 tn2 dn2 tx2 e2 ip2 op2) = some c2)
    (hC2 : pkg.models.find? (fun m => decide (m.id = c2)) =
      some (Model.Condition i3 p3 tn3 dn3 tx3 e3 ip3 op3))
    (hroute2 : condTarget E s.state (Model.Condition i3 p3 tn3 dn3 tx3 e3 ip3 op3) = some f2)
    (hF2 : pkg.models.find? (fun m => decide (m.id = f2)) =
      some (Model.DialogueFragment i4 p4 tn4 tx4 ip4 op4)) :
    Interpreter.advance E (n + 6) s =
      some (Except.ok (Outcome.Advanced (Model.DialogueFragment i4 p4 tn4 tx4 ip4 op4)),
        { s with cursor := some f2 }) := by
  calc Interpreter.advance E (n + 6) s
      = Interpreter.post_advance E (n + 5) { s with cursor := some c1 } := by
        have h := advance_fragment_one E (n + 5) s f1 pkg i1 p1 tn1 tx1 ip1 op1 [t] pin1 conn1
          hc hpkg hF1 hconns (by simp) hpin1 hconn1
        rw [ht1] at h
        exact h
    _ = Interpreter.advance E (n + 4) { s with cursor := some c1 } :=
        post_advance_condition E (n + 4) { s with cursor := some c1 } c1 pkg
          i2 p2 tn2 dn2 tx2 e2 ip2 op2 rfl hpkg hC1
    _ = Interpreter.post_advance E (n + 3) { s with cursor := some c2 } :=
        advance_condition_route E (n + 3) { s with cursor := some c1 } c1 pkg
          i2 p2 tn2 dn2 tx2 e2 ip2 op2 c2 rfl hpkg hC1 hroute1
    _ = Interpreter.advance E (n + 2) { s with cursor := some c2 } :=
        post_advance_condition E (n + 2) { s with cursor := some c2 } c2 pkg
          i3 p3 tn3 dn3 tx3 e3 ip3 op3 rfl hpkg hC2
    _ = Interpreter.post_advance E (n + 1) { s with cursor := some f2 } :=
        advance_condition_route E (n + 1) { s with cursor := some c2 } c2 pkg
          i3 p3 tn3 dn3 tx3 e3 ip3 op3 f2 rfl hpkg hC2 hroute2
    _ = some (Except.ok (Outcome.Advanced (Model.DialogueFragment i4 p4 tn4 tx4 ip4 op4)),
        { s with cursor := some f2 }) :=
        post_advance_fragment E n { s with cursor := some f2 } f2 pkg
          i4 p4 tn4 tx4 ip4 op4 rfl hpkg hF2

/-- C7 witness: the concrete chain F1 → C1 → C2 → F2 with `flag = true`;
one `advance()` call from F1 returns `Advanced(F2)` with the cursor on
F2. -/
theorem claim_C7_witness :
    Interpreter.advance testEngine 6 wAtF1 =
      some (Except.ok (Outcome.Advanced wF2Model), { wAtF1 with cursor := some ⟨"F2"⟩ }) :=
  claim_C7 testEngine 0 wAtF1 wPkg ⟨"F1"⟩ ⟨"C1"⟩ ⟨"C2"⟩ ⟨"F2"⟩
    ⟨"F1"⟩ ⟨"D"⟩ "F1_tech" "line one"
    [{ text := "", id := ⟨"F1in"⟩, owner := ⟨"F1"⟩, connections := [] }]
    [wF1OutPin] wF1OutPin wF1Conn wC1Model
    ⟨"C1"⟩ ⟨"D"⟩ "C1_tech" "cond one" "" "flag"
    [{ text := "", id := ⟨"C1in"⟩, owner := ⟨"C1"⟩, connections := [] }]
    [wC1PinT, wC1PinF]
    ⟨"C2"⟩ ⟨"D"⟩ "C2_tech" "cond two" "" "flag"
    [{ text := "", id := ⟨"C2in"⟩, owner := ⟨"C2"⟩, connections := [] }]
    [{ text := "", id := ⟨"C2outT"⟩, owner := ⟨"C2"⟩,
       connections := [{ label := "", target_pin := ⟨"F2in"⟩, target := ⟨"F2"⟩ }] },
     { text := "", id := ⟨"C2outF"⟩, owner := ⟨"C2"⟩,
       connections := [{ label := "", target_pin := ⟨"F3in"⟩, target := ⟨"F3"⟩ }] }]
    ⟨"F2"⟩ ⟨"D"⟩ "F2_tech" "line two"
    [{ text := "", id := ⟨"F2in"⟩, owner := ⟨"F2"⟩, connections := [] }]
    [{ text := "", id := ⟨"F2out"⟩, owner := ⟨"F2"⟩, connections := [] }]
    rfl rfl rfl rfl rfl rfl rfl rfl rfl rfl rfl rfl

lemma choose_filter_eq (E : EvalEngine) (store : Store) (choices : List Model) :
    (choices.filterMap fun choice =>
      match choice.input_pins with
      | none => none
      | some ipins =>
        match ipins.head? with
        | none => none
        | some firstPin =>
          match decide (firstPin.text = ""),
                E.eval_boolean_with_context firstPin.text store with
          | true, _ => some choice
          | false, Except.ok true => some choice
          | _, _ => none) = choices.filter (chooseGate E store) := by
  induction choices with
  | nil => rfl
  | cons c rest ih =>
    simp only [List.filterMap_cons, List.filter_cons]
    rw [ih]
    cases hip : c.input_pins with
    | none => simp [chooseGate, hip]
    | some ipins =>
      cases hpin : ipins.head? with
      | none => simp [chooseGate, hip, hpin]
      | some firstPin =>
        by_cases he : firstPin.text = ""
        · simp [chooseGate, hip, hpin, he]
        · cases hev : E.eval_boolean_with_context firstPin.text store with
          | ok b =>
            cases b with
            | true => simp [chooseGate, hip, hpin, he, hev]
            | false => simp [chooseGate, hip, hpin, he, hev]
          | error u => simp [chooseGate, hip, hpin, he, hev]

/-- C3 amended: `choose(targetId)` re-resolves the available targets at
call time, but then applies a SECOND gate on top of the resolution: a
candidate survives only if its first input pin exists and that pin's
expression is empty or evaluates to `true` (the first pin, not
necessarily the pin named by the connection's `target_pin`). The call
moves the cursor and returns `Advanced` exactly when `targetId` is found
among the doubly-gated candidates; otherwise it degrades to `advance()`. -/
theorem claim_C3_amended (E : EvalEngine) (fuel : Nat) (s : Interpreter) (id : Id)
    (choices : List Model)
    (h : Interpreter.get_available_connections_at_cursor E s = Except.ok choices) :
    (∀ choice m,
      (choices.filter (chooseGate E s.state)).find? (fun c => decide (c.id = id)) =
        some choice →
      Interpreter.get_current_model { s with cursor := some choice.id } = Except.ok m →
      Interpreter.choose E fuel s id =
        some (Except.ok (Outcome.Advanced m), { s with cursor := some choice.id })) ∧
    ((choices.filter (chooseGate E s.state)).find? (fun c => decide (c.id = id)) = none →
      Interpreter.choose E fuel s id = Interpreter.advance E fuel s) := by
  constructor
  · intro choice m hfound hm
    unfold Interpreter.choose
    simp only [h, remapErr_ok]
    rw [choose_filter_eq E s.state choices, hfound]
    simp only [hm]
  · intro hnone
    unfold Interpreter.choose
    simp only [h, remapErr_ok]
    rw [choose_filter_eq E s.state choices, hnone]

/-- C3 counterexample: node `T` IS a member of the resolved available
connections from `X0` (the connection enters `T` through its second input
pin, whose gate is empty), yet `choose(T)` does not move the cursor to
`T` and does not return `Advanced`: the extra gate on `T`'s FIRST input
pin (`blocked`, which evaluates with an error) rejects it and the call
degrades to `advance()`, returning `WaitingForChoice` with the cursor
unmoved. -/
theorem claim_C3_counterexample :
    Interpreter.get_available_connections_at_cursor testEngine wAtX0 =
      Except.ok [wTModel] ∧
    Interpreter.choose testEngine 1 wAtX0 ⟨"T"⟩ =
      some (Except.ok (Outcome.WaitingForChoice [wTModel]), wAtX0) ∧
    ∀ (m : Model) (s' : Interpreter), Interpreter.choose testEngine 1 wAtX0 ⟨"T"⟩ ≠
      some (Except.ok (Outcome.Advanced m), s') := by
  refine ⟨rfl, rfl, ?_⟩
  intro m s' hcontra
  rw [show Interpreter.choose testEngine 1 wAtX0 ⟨"T"⟩ =
    some (Except.ok (Outcome.WaitingForChoice [wTModel]), wAtX0) from rfl] at hcontra
  simp at hcontra

/-- C3 witness: from `G1` both resolved targets pass the double gate with
`flag = true`; choosing the hub `H` moves the cursor there and returns
`Advanced(H)`. -/
theorem claim_C3_witness :
    Interpreter.choose testEngine 1 wAtG1 ⟨"H"⟩ =
      some (Except.ok (Outcome.Advanced wHubModel), { wAtG1 with cursor := some ⟨"H"⟩ }) :=
  (claim_C3_amended testEngine 1 wAtG1 ⟨"H"⟩ [wC1Model, wHubModel] rfl).1
    wHubModel wHubModel rfl rfl

lemma current_after_set (s : Interpreter) (id : Id) (pkg : Package) (model : Model)
    (hpkg : s.file.get_default_package = Except.ok pkg)
    (hfind : pkg.models.find? (fun m => decide (m.id = id)) = some model) :
    model.id = id ∧
    Interpreter.get_current_model { s with cursor := some model.id } = Except.ok model := by
  have hid : model.id = id := by
    have := List.find?_some hfind
    exact of_decide_eq_true this
  refine ⟨hid, ?_⟩
  unfold Interpreter.get_current_model Interpreter.get_model
  simp only
  rw [hpkg]
  simp only [ok_bind, pure_ok, hid, hfind]

lemma first_fragment_components (f : File) (model : Model) (fuel : Nat) (fragId : Id)
    (h : f.get_first_dialogue_fragment_of_dialogue model fuel = some (Except.ok fragId)) :
    ∃ path hnode children node,
      f.get_hierarchy_path_from_model model fuel = some (Except.ok path) ∧
      f.get_hierarchy path = some hnode ∧
      hnode.children = some children ∧
      children.find? (fun node => isPlayableKind node.kind) = some node ∧
      node.id = fragId := by
  cases hp : f.get_hierarchy_path_from_model model fuel with
  | none => simp [File.get_first_dialogue_fragment_of_dialogue, hp] at h
  | some r =>
    cases r with
    | error fl => simp [File.get_first_dialogue_fragment_of_dialogue, hp] at h
    | ok path =>
      cases hh : f.get_hierarchy path with
      | none => simp [File.get_first_dialogue_fragment_of_dialogue, hp, hh] at h
      | some hnode =>
        cases hch : hnode.children with
        | none => simp [File.get_first_dialogue_fragment_of_dialogue, hp, hh, hch] at h
        | some children =>
          cases hnd : children.find? (fun node => isPlayableKind node.kind) with
          | none =>
            simp [File.get_first_dialogue_fragment_of_dialogue, hp, hh, hch, hnd] at h
          | some node =>
            simp only [File.get_first_dialogue_fragment_of_dialogue, hp, hh, hch, hnd,
              Option.some.injEq, Except.ok.injEq] at h
            exact ⟨path, hnode, children, node, rfl, hh, hch, hnd, h⟩

/-- C6 amended: `start(entryId)` fails with `NoModel` when the entry does
not resolve. For a Dialogue entry the cursor becomes the dialogue's first
playable hierarchy child (NoHierarchy when none qualifies). For a
FlowFragment entry the code does NOT take the FlowFragment's own first
playable child: it takes the first Dialogue model whose `parent` is the
FlowFragment and resolves THAT dialogue's first playable child, failing
with `NoModel` (not `NoHierarchy`) when the flow contains no Dialogue.
For every other node kind the cursor is left on the entry id. -/
theorem claim_C6_amended (s : Interpreter) (id : Id) (fuel : Nat) (pkg : Package)
    (hpkg : s.file.get_default_package = Except.ok pkg) :
    (pkg.models.find? (fun m => decide (m.id = id)) = none →
      Interpreter.start s id fuel = some (Except.error (Fault.err Error.NoModel), s)) ∧
    (∀ i p tn dn tx ipins opins fragId,
      pkg.models.find? (fun m => decide (m.id = id)) =
        some (Model.Dialogue i p tn dn tx ipins opins) →
      s.file.get_first_dialogue_fragment_of_dialogue
        (Model.Dialogue i p tn dn tx ipins opins) fuel = some (Except.ok fragId) →
      Interpreter.start s id fuel = some (Except.ok (), { s with cursor := some fragId })) ∧
    (∀ i p tn dn tx ipins opins,
      pkg.models.find? (fun m => decide (m.id = id)) =
        some (Model.Dialogue i p tn dn tx ipins opins) →
      s.file.get_first_dialogue_fragment_of_dialogue
        (Model.Dialogue i p tn dn tx ipins opins) fuel =
        some (Except.error (Fault.err Error.NoHierarchy)) →
      Interpreter.start s id fuel =
        some (Except.error (Fault.err Error.NoHierarchy), { s with cursor := some i })) ∧
    (∀ p i tn dn tx ipins opins dialogues dialogue fragId,
      pkg.models.find? (fun m => decide (m.id = id)) =
        some (Model.FlowFragment p i tn dn tx ipins opins) →
      s.file.get_dialogues_in_flow i = Except.ok dialogues →
      dialogues.head? = some dialogue →
      s.file.get_first_dialogue_fragment_of_dialogue dialogue fuel = some (Except.ok fragId) →
      Interpreter.start s id fuel = some (Except.ok (), { s with cursor := some fragId })) ∧
    (∀ p i tn dn tx ipins opins,
      pkg.models.find? (fun m => decide (m.id = id)) =
        some (Model.FlowFragment p i tn dn tx ipins opins) →
      s.file.get_dialogues_in_flow i = Except.ok [] →
      Interpreter.start s id fuel =
        some (Except.error (Fault.err Error.NoModel), { s with cursor := some i })) ∧
    (∀ model,
      pkg.models.find? (fun m => decide (m.id = id)) = some model →
      isStartContainer model = false →
      Interpreter.start s id fuel = some (Except.ok (), { s with cursor := some model.id })) := by
  refine ⟨?_, ?_, ?_, ?_, ?_, ?_⟩
  · intro hf
    unfold Interpreter.start
    rw [hpkg]
    simp only [hf]
  · intro i p tn dn tx ipins opins fragId hf hfrag
    obtain ⟨hid, hcm⟩ := current_after_set s id pkg _ hpkg hf
    simp only [Model.id] at hcm
    unfold Interpreter.start
    rw [hpkg]
    simp only [hf]
    simp only [Model.id]
    simp only [hcm, hfrag]
  · intro i p tn dn tx ipins opins hf hfrag
    obtain ⟨hid, hcm⟩ := current_after_set s id pkg _ hpkg hf
    simp only [Model.id] at hcm
    unfold Interpreter.start
    rw [hpkg]
    simp only [hf]
    simp only [Model.id]
    simp only [hcm, hfrag]
  · intro p i tn dn tx ipins opins dialogues dialogue fragId hf hdia hhead hfrag
    obtain ⟨hid, hcm⟩ := current_after_set s id pkg _ hpkg hf
    simp only [Model.id] at hcm
    obtain ⟨path, hnode, children, node, hp, hh, hch, hnd, hnid⟩ :=
      first_fragment_components s.file dialogue fuel fragId hfrag
    unfold Interpreter.start
    rw [hpkg]
    simp only [hf]
    simp only [Model.id]
    simp only [hcm, hdia, hhead, hp, hh, hch, hnd, hnid]
  · intro p i tn dn tx ipins opins hf hdia
    obtain ⟨hid, hcm⟩ := current_after_set s id pkg _ hpkg hf
    simp only [Model.id] at hcm
    unfold Interpreter.start
    rw [hpkg]
    simp only [hf]
    simp only [Model.id]
    simp only [hcm, hdia, List.head?_nil]
  · intro model hf hnc
    obtain ⟨hid, hcm⟩ := current_after_set s id pkg _ hpkg hf
    cases model with
    | Dialogue i p tn dn tx ipins opins => simp [isStartContainer] at hnc
    | FlowFragment p i tn dn tx ipins opins => simp [isStartContainer] at hnc
    | DialogueFragment i p tn tx ipins opins =>
      unfold Interpreter.start
      rw [hpkg]
      simp only [hf]
      simp only [Model.id] at hcm ⊢
      simp only [hcm]
    | Hub i p tn dn tx ipins opins =>
      unfold Interpreter.start
      rw [hpkg]
      simp only [hf]
      simp only [Model.id] at hcm ⊢
      simp only [hcm]
    | Condition i p tn dn tx e ipins opins =>
      unfold Interpreter.start
      rw [hpkg]
      simp only [hf]
      simp only [Model.id] at hcm ⊢
      simp only [hcm]
    | Instruction i p tn e ipins opins =>
      unfold Interpreter.start
      rw [hpkg]
      simp only [hf]
      simp only [Model.id] at hcm ⊢
      simp only [hcm]
    | Entity i p tn dn tx =>
      unfold Interpreter.start
      rw [hpkg]
      simp only [hf]
      simp only [Model.id] at hcm ⊢
      simp only [hcm]
    | Comment i p tn tx =>
      unfold Interpreter.start
      rw [hpkg]
      simp only [hf]
      simp only [Model.id] at hcm ⊢
      simp only [hcm]
    | UserFolder i p tn =>
      unfold Interpreter.start
      rw [hpkg]
      simp only [hf]
      simp only [Model.id] at hcm ⊢
      simp only [hcm]
    | Custom kind v =>
      unfold Interpreter.start
      rw [hpkg]
      simp only [hf]
      simp only [Model.id] at hcm ⊢
      simp only [hcm]

/-- C6 counterexample: FlowFragment `FF`'s own hierarchy entry has no
playable child (its only child is a Dialogue), so under the claim
`start(FF)` would fail with `NoHierarchy` — but the code succeeds and
lands the cursor on `FD1`, the first playable child of the first Dialogue
inside the flow. -/
theorem claim_C6_counterexample :
    c6File.get_hierarchy [⟨"MF2"⟩, ⟨"FF"⟩] = some c6FFHierarchy ∧
    c6FFChildren.find? (fun node => isPlayableKind node.kind) = none ∧
    Interpreter.start c6Runner ⟨"FF"⟩ 4 =
      some (Except.ok (), { c6Runner with cursor := some ⟨"FD1"⟩ }) ∧
    ∀ s' : Interpreter, Interpreter.start c6Runner ⟨"FF"⟩ 4 ≠
      some (Except.error (Fault.err Error.NoHierarchy), s') := by
  refine ⟨rfl, rfl, rfl, ?_⟩
  intro s' h
  rw [show Interpreter.start c6Runner ⟨"FF"⟩ 4 =
    some (Except.ok (), { c6Runner with cursor := some ⟨"FD1"⟩ }) from rfl] at h
  simp at h

/-- C6 witness: on the concrete project, starting at the Dialogue `D`
lands on its first playable child `F1`; an unknown entry id fails with
`NoModel`; starting at the Entity `E` leaves the cursor on `E`. -/
theorem claim_C6_witness :
    Interpreter.start wRunner ⟨"D"⟩ 4 =
      some (Except.ok (), { wRunner with cursor := some ⟨"F1"⟩ }) ∧
    Interpreter.start wRunner ⟨"missing"⟩ 4 =
      some (Except.error (Fault.err Error.NoModel), wRunner) ∧
    Interpreter.start wRunner ⟨"E"⟩ 4 =
      some (Except.ok (), { wRunner with cursor := some ⟨"E"⟩ }) :=
  ⟨(claim_C6_amended wRunner ⟨"D"⟩ 4 wPkg rfl).2.1 ⟨"D"⟩ wMainFlowId "D_tech" "Day 1" ""
      [] [] ⟨"F1"⟩ rfl rfl,
   (claim_C6_amended wRunner ⟨"missing"⟩ 4 wPkg rfl).1 rfl,
   (claim_C6_amended wRunner ⟨"E"⟩ 4 wPkg rfl).2.2.2.2.2 wEntityModel rfl rfl⟩
